import Mathlib

/-!
Verification of the TinyLlama attention / positional-encoding subsystem
(`lit_gpt/model.py`) against its natural-language specification.

The Python source is shallowly embedded: tensors whose per-slot contents are
irrelevant to a claim are lists over an arbitrary element type, matrices are
lists of lists, fallible paths return `Option`/`Except`, and the floating-point
trigonometry of the rotary cache is modelled over `ℝ`.
-/

namespace TinyLlama

/-! ## KV cache write path (`CausalSelfAttention.forward`, model.py lines 300-312)

The cache buffers have shape `(B, max_seq_length, heads, head_dim)` and every
operation used (`torch.roll(-1, dims=1)`, `index_copy_(1, ...)`) acts uniformly
along dimension 1, so a cache is modelled as a list of slots, one slot per
sequence position, with an arbitrary slot type `α`. -/

/-- Model of `torch.roll(x, -1, dims=1)`: every slot moves one step to the
left and the first slot wraps around to the end. -/
def torchRollNeg1 : List α → List α
  | [] => []
  | a :: rest => rest ++ [a]

/-- Sequential in-place writes `c[p] := s` for each pair `(p, s)`, later writes
winning, as `index_copy_` performs them along the indexed dimension. -/
def writeAll (cache : List α) (ps : List (Nat × α)) : List α :=
  ps.foldl (fun c pa => c.set pa.1 pa.2) cache

/-- Model of `cache.index_copy_(1, pos, src)`: requires exactly one source slot
per index and in-range indices (torch raises otherwise), then writes each
source slot at its index. -/
def indexCopy (cache : List α) (pos : List Nat) (src : List α) : Option (List α) :=
  if pos.length = src.length ∧ ∀ p ∈ pos, p < cache.length then
    some (writeAll cache (pos.zip src))
  else none

/-- Model of the cache-update block of `CausalSelfAttention.forward`
(model.py lines 300-312):

    if input_pos[-1] >= max_seq_length:
        input_pos = torch.tensor(max_seq_length - 1, ...)
        cache_k = torch.roll(cache_k, -1, dims=1)
        cache_v = torch.roll(cache_v, -1, dims=1)
    k = cache_k.index_copy_(1, input_pos, k)

The same function is applied to the key buffer and to the value buffer. -/
def kvCacheWrite (maxSeqLength : Nat) (cache : List α) (inputPos : List Nat)
    (src : List α) : Option (List α) :=
  match inputPos.getLast? with
  | none => none
  | some last =>
    if maxSeqLength ≤ last then
      indexCopy (torchRollNeg1 cache) [maxSeqLength - 1] src
    else
      indexCopy cache inputPos src

theorem torchRollNeg1_length (l : List α) : (torchRollNeg1 l).length = l.length := by
  cases l <;> simp [torchRollNeg1]

theorem writeAll_nil (cache : List α) : writeAll cache [] = cache := rfl

theorem writeAll_cons (cache : List α) (q : Nat × α) (ps : List (Nat × α)) :
    writeAll cache (q :: ps) = writeAll (cache.set q.1 q.2) ps := rfl

theorem writeAll_length (ps : List (Nat × α)) (cache : List α) :
    (writeAll cache ps).length = cache.length := by
  induction ps generalizing cache with
  | nil => rfl
  | cons q rest ih => rw [writeAll_cons, ih, List.length_set]

theorem writeAll_getElem_not_mem (ps : List (Nat × α)) (cache : List α) (i : Nat)
    (h : ∀ pa ∈ ps, pa.1 ≠ i) : (writeAll cache ps)[i]? = cache[i]? := by
  induction ps generalizing cache with
  | nil => rfl
  | cons q rest ih =>
    have hq : q.1 ≠ i := h q (List.mem_cons_self q rest)
    have hrest : ∀ pa ∈ rest, pa.1 ≠ i := fun pa hpa => h pa (List.mem_cons_of_mem q hpa)
    rw [writeAll_cons, ih (cache.set q.1 q.2) hrest, List.getElem?_set_ne hq]

theorem writeAll_getElem_written (ps : List (Nat × α)) (cache : List α)
    (hnd : (ps.map Prod.fst).Nodup) (pa : Nat × α) (hmem : pa ∈ ps)
    (hlt : pa.1 < cache.length) : (writeAll cache ps)[pa.1]? = some pa.2 := by
  induction ps generalizing cache with
  | nil => cases hmem
  | cons q rest ih =>
    simp only [List.map_cons, List.nodup_cons] at hnd
    rcases List.mem_cons.mp hmem with hq | hrest
    · subst hq
      have hnotouch : ∀ pb ∈ rest, pb.1 ≠ pa.1 := by
        intro pb hpb heq
        exact hnd.1 (heq ▸ List.mem_map_of_mem Prod.fst hpb)
      rw [writeAll_cons, writeAll_getElem_not_mem rest _ pa.1 hnotouch,
        List.getElem?_set_self hlt]
    · rw [writeAll_cons]
      exact ih (cache.set q.1 q.2) hnd.2 hrest (by simpa using hlt)

/-- An over-capacity single-slot write: the buffer is rolled left and the new
slot lands at index `maxSeqLength - 1`, i.e. the result is
`cache.tail ++ [s]`. -/
theorem kvCacheWrite_overflow_single (m : Nat) (cache : List α) (p : Nat) (s : α)
    (hlen : cache.length = m) (hm : 1 ≤ m) (hp : m ≤ p) :
    kvCacheWrite m cache [p] [s] = some (cache.tail ++ [s]) := by
  cases cache with
  | nil => simp at hlen; omega
  | cons a rest =>
    have hm1 : m - 1 = rest.length := by simp at hlen; omega
    have hroll : torchRollNeg1 (a :: rest) = rest ++ [a] := rfl
    have hlr : (rest ++ [a]).length = m := by simp at hlen ⊢; omega
    simp only [kvCacheWrite, List.getLast?_singleton]
    rw [if_pos hp]
    unfold indexCopy
    rw [hroll]
    have hcond : ([m - 1] : List Nat).length = ([s] : List α).length ∧
        ∀ q ∈ [m - 1], q < (rest ++ [a]).length := by
      refine ⟨rfl, ?_⟩
      intro q hq
      simp only [List.mem_singleton] at hq
      subst hq
      omega
    rw [if_pos hcond]
    have hset : (rest ++ [a]).set (m - 1) s = rest ++ [s] := by
      rw [List.set_append, if_neg (by omega)]
      congr 1
      rw [show m - 1 - rest.length = 0 by omega]
      rfl
    simp only [List.zip_cons_cons, List.zip_nil_right, writeAll_cons, writeAll_nil, hset,
      List.tail_cons]

/-- An in-bounds write (every requested position strictly below capacity):
no shift happens and the write is a plain indexed copy. -/
theorem kvCacheWrite_inbounds (m : Nat) (cache : List α) (pos : List Nat)
    (src : List α) (hlen : cache.length = m) (hne : pos ≠ [])
    (hl : pos.length = src.length) (hbound : ∀ p ∈ pos, p < m) :
    kvCacheWrite m cache pos src = some (writeAll cache (pos.zip src)) := by
  match h : pos.getLast? with
  | none => exact absurd (List.getLast?_eq_none_iff.mp h) hne
  | some last =>
    have hmem : last ∈ pos := List.mem_of_getLast?_eq_some h
    have hlast : last < m := hbound last hmem
    simp only [kvCacheWrite, h]
    rw [if_neg (by omega : ¬ m ≤ last)]
    unfold indexCopy
    have hcond : pos.length = src.length ∧ ∀ p ∈ pos, p < cache.length :=
      ⟨hl, fun p hp => by rw [hlen]; exact hbound p hp⟩
    rw [if_pos hcond]

/-- C1: in the incremental-decoding write path, when the highest requested
write position reaches or exceeds the capacity `max_seq_length` (for the
mode's single-token writes), all existing entries shift left one slot, the
oldest is evicted, and the new data lands in the last slot; when every
requested position is strictly below capacity, no shift occurs and the data
is written at exactly the requested positions.  In particular, with capacity
4 and cache `[10, 20, 30, 40]`, writing `50` at position 4 yields
`[20, 30, 40, 50]`. -/
theorem kvCacheWrite_eviction_policy :
    (∀ (α : Type) (m : Nat) (cache : List α) (p : Nat) (s : α),
        cache.length = m → 1 ≤ m → m ≤ p →
        kvCacheWrite m cache [p] [s] = some (cache.tail ++ [s]))
    ∧ (∀ (α : Type) (m : Nat) (cache : List α) (pos : List Nat) (src : List α),
        cache.length = m → pos ≠ [] → pos.length = src.length → pos.Nodup →
        (∀ p ∈ pos, p < m) →
        ∃ c', kvCacheWrite m cache pos src = some c' ∧
          c'.length = m ∧
          (∀ i, i < m → i ∉ pos → c'[i]? = cache[i]?) ∧
          (∀ p s, (p, s) ∈ pos.zip src → c'[p]? = some s))
    ∧ kvCacheWrite 4 ([10, 20, 30, 40] : List Int) [4] [50] = some [20, 30, 40, 50] := by
  refine ⟨?_, ?_, by decide⟩
  · intro α m cache p s h1 h2 h3
    exact kvCacheWrite_overflow_single m cache p s h1 h2 h3
  · intro α m cache pos src hlen hne hl hnd hbound
    refine ⟨writeAll cache (pos.zip src),
      kvCacheWrite_inbounds m cache pos src hlen hne hl hbound, ?_, ?_, ?_⟩
    · rw [writeAll_length, hlen]
    · intro i hi hni
      apply writeAll_getElem_not_mem
      intro pa hpa heq
      exact hni (heq ▸ (List.of_mem_zip hpa).1)
    · intro p s hps
      apply writeAll_getElem_written (pos.zip src) cache ?_ (p, s) hps ?_
      · rw [List.map_fst_zip pos src (le_of_eq hl)]
        exact hnd
      · rw [hlen]
        exact hbound p (List.of_mem_zip hps).1

/-- Witness for C1: the concrete eviction scenario of the spec, obtained by
instantiating the over-capacity clause of `kvCacheWrite_eviction_policy`. -/
theorem kvCacheWrite_eviction_policy_witness :
    ([10, 20, 30, 40] : List Int).length = 4 ∧ 1 ≤ 4 ∧ 4 ≤ 4 ∧
      kvCacheWrite 4 ([10, 20, 30, 40] : List Int) [4] [50] =
        some (([10, 20, 30, 40] : List Int).tail ++ [50]) :=
  ⟨by decide, by decide, by decide,
    kvCacheWrite_eviction_policy.1 Int 4 [10, 20, 30, 40] 4 50 (by decide) (by decide)
      (by decide)⟩

/-- C10 counterexample: a multi-position write past capacity does not
collapse onto the last slot; `index_copy_` is handed the single clamped index
`max_seq_length - 1` together with two source slots, a size mismatch that
raises, so no cache state is produced at all. -/
theorem kvCacheWrite_multi_overflow_errors :
    kvCacheWrite 4 ([10, 20, 30, 40] : List Int) [4, 5] [50, 60] = none := by decide

/-- C10 (amended): whenever the last requested position is at or past
capacity, the position tensor is replaced by the single scalar
`max_seq_length - 1` and the buffer shifts by exactly one slot, however far
the positions overshoot — a single-token write at `max_seq_length + k` gives
the same cache state as one at `max_seq_length` for every `k` — while a
multi-position write past capacity fails with a size mismatch instead of
being stored. -/
theorem kvCacheWrite_overflow_collapse :
    (∀ (α : Type) (m : Nat) (cache : List α) (k : Nat) (s : α),
        cache.length = m → 1 ≤ m →
        kvCacheWrite m cache [m + k] [s] = kvCacheWrite m cache [m] [s])
    ∧ (∀ (α : Type) (m : Nat) (cache : List α) (pos : List Nat) (src : List α)
        (l : Nat), cache.length = m → pos.getLast? = some l → m ≤ l →
        src.length ≠ 1 → kvCacheWrite m cache pos src = none)
    ∧ kvCacheWrite 4 ([10, 20, 30, 40] : List Int) [6] [50] =
        kvCacheWrite 4 ([10, 20, 30, 40] : List Int) [4] [50] := by
  refine ⟨?_, ?_, by decide⟩
  · intro α m cache k s hlen hm
    rw [kvCacheWrite_overflow_single m cache (m + k) s hlen hm (by omega),
      kvCacheWrite_overflow_single m cache m s hlen hm (by omega)]
  · intro α m cache pos src l hlen hgl hml hsrc
    simp only [kvCacheWrite, hgl]
    rw [if_pos hml]
    unfold indexCopy
    rw [if_neg]
    intro hcond
    exact hsrc hcond.1.symm

/-- Witness for C10: overshoot independence at a concrete overshoot of 2,
obtained from the first clause of `kvCacheWrite_overflow_collapse`. -/
theorem kvCacheWrite_overflow_collapse_witness :
    ([10, 20, 30, 40] : List Int).length = 4 ∧ 1 ≤ 4 ∧
      kvCacheWrite 4 ([10, 20, 30, 40] : List Int) [4 + 2] [50] =
        kvCacheWrite 4 ([10, 20, 30, 40] : List Int) [4] [50] :=
  ⟨by decide, by decide,
    kvCacheWrite_overflow_collapse.1 Int 4 [10, 20, 30, 40] 2 50 (by decide) (by decide)⟩

/-! ## Attention kernel dispatch
(`CausalSelfAttention.scaled_dot_product_attention`, model.py lines 321-380)

The claims about this function concern which computation is dispatched and
which failures are raised, not the numeric value of the attention output, so
the embedding records the selected code path (and the effective sliding
window handed to the kernel) as data. -/

/-- Device kind of the query tensor (`q.device.type`). -/
inductive DeviceType
  | cuda
  | cpu
  | xla
deriving DecidableEq

/-- Floating dtype of the query tensor (`q.dtype`). -/
inductive DType
  | float16
  | bfloat16
  | float32
  | float64
deriving DecidableEq

/-- The computation `scaled_dot_product_attention` ends up performing:
the document-segmented varlen flash kernel (with the effective window, if
any), the windowed flash kernel, the plain causal flash kernel, or the
reference `torch.nn.functional.scaled_dot_product_attention` fallback, which
computes full-context attention (causal when no explicit mask is given). -/
inductive AttnPath
  | varlenSegmented (window : Option (Int × Int))
  | flashWindowed (window : Int × Int)
  | flashFull
  | reference (maskPresent : Bool)
deriving DecidableEq

/-- Model of `CausalSelfAttention.scaled_dot_product_attention`
(model.py lines 321-380).  `maskAttn` is `self._mask_attn`
(= `config.intradoc_mask` truthiness), `configWindowSize` is
`self.config.window_size` (`-1` = disabled), `windowSize` the optional
explicit argument.  The failed `assert` statements surface as `.error`. -/
def scaled_dot_product_attention (flashAttention2Available : Bool)
    (device : DeviceType) (dtype : DType) (training maskAttn maskPresent : Bool)
    (cuseqLens : Option (List Nat)) (maxSeqlen : Option Nat)
    (forceUseMasking : Bool) (windowSize : Option Int) (configWindowSize : Int) :
    Except String AttnPath :=
  if flashAttention2Available ∧ maskPresent = false ∧ device = DeviceType.cuda ∧
      (dtype = DType.float16 ∨ dtype = DType.bfloat16) then
    if forceUseMasking ∨ (maskAttn ∧ training) then
      match cuseqLens with
      | none => Except.error "cu_seqlens must be provided for intradoc mask"
      | some _ =>
        match maxSeqlen with
        | none => Except.error "max_seqlen must be provided for intradoc mask"
        | some _ =>
          if windowSize ≠ none ∨ configWindowSize ≠ -1 then
            Except.ok (AttnPath.varlenSegmented (some
              (match windowSize with
                | some w => (w - 1, 0)
                | none => (configWindowSize - 1, 0))))
          else
            Except.ok (AttnPath.varlenSegmented none)
    else if configWindowSize ≠ -1 ∨ windowSize ≠ none then
      Except.ok (AttnPath.flashWindowed
        (match windowSize with
          | none => (configWindowSize - 1, 0)
          | some w => (w - 1, 0)))
    else
      Except.ok AttnPath.flashFull
  else
    Except.ok (AttnPath.reference maskPresent)

/-- Inclusive prefix sums, the behaviour of `torch.cumsum(x, 0)` on a
one-dimensional tensor. -/
def cumsum (l : List Nat) : List Nat :=
  (List.range l.length).map fun i => (l.take (i + 1)).sum

/-- Model of the segment-boundary preprocessing at the top of `GPT.forward`
(model.py lines 72-81).  When masking is active it reads
`fragment_lens.device` (raising on `None`), zips `fragment_lens` with
`fragment_nums` (raising when the latter is `None`), truncates each example's
padded fragment lengths to its valid count, flattens with a leading `0`, and
returns `(cu_seqlens, max_seqlen)`; otherwise both are `None`. -/
def gptForwardPrep (forceUseMasking training : Bool) (intradocMask : String)
    (fragmentLens : Option (List (List Nat))) (fragmentNums : Option (List Nat)) :
    Except String (Option (List Nat) × Option Nat) :=
  if forceUseMasking ∨ (intradocMask ≠ "" ∧ training) then
    match fragmentLens with
    | none => Except.error "AttributeError: NoneType object has no attribute device"
    | some fl =>
      match fragmentNums with
      | none => Except.error "TypeError: argument of type NoneType is not iterable"
      | some fn =>
        let realFragmentLens := 0 :: ((fl.zip fn).map fun pc => pc.1.take pc.2).flatten
        Except.ok (some (cumsum realFragmentLens), some (realFragmentLens.foldr max 0))
  else
    Except.ok (none, none)

/-- C2 counterexample: with intra-document masking forced during training and
`cu_seqlens` absent, a call on a non-CUDA device does not fail — the dispatch
falls through to the reference path and silently computes full-context,
unsegmented attention. -/
theorem sdpa_missing_cuseqlens_silent_on_cpu :
    scaled_dot_product_attention true DeviceType.cpu DType.bfloat16 true true false
        none none true none (-1) = Except.ok (AttnPath.reference false)
    ∧ ∀ msg, scaled_dot_product_attention true DeviceType.cpu DType.bfloat16 true true
        false none none true none (-1) ≠ Except.error msg := by
  refine ⟨rfl, ?_⟩
  intro msg h
  rw [show scaled_dot_product_attention true DeviceType.cpu DType.bfloat16 true true
      false none none true none (-1) = Except.ok (AttnPath.reference false) from rfl] at h
  cases h

/-- C2 (amended): when intra-document masking is active during training (or
forced) and `cu_seqlens` is absent, the model-level forward fails fast
(reading `fragment_lens.device` raises), and the fused flash-attention path
(CUDA device, half-precision dtype, no explicit mask) fails fast with the
`cu_seqlens` assertion; but the reference fallback path (e.g. a non-CUDA
device) performs full-context unsegmented attention without any error. -/
theorem sdpa_missing_cuseqlens_fail_fast :
    (∀ (forceUseMasking training : Bool) (intradocMask : String)
        (fragmentNums : Option (List Nat)),
        forceUseMasking ∨ (intradocMask ≠ "" ∧ training) →
        ∃ msg, gptForwardPrep forceUseMasking training intradocMask none fragmentNums =
          Except.error msg)
    ∧ (∀ (dtype : DType) (training maskAttn : Bool) (maxSeqlen : Option Nat)
        (forceUseMasking : Bool) (windowSize : Option Int) (configWindowSize : Int),
        forceUseMasking ∨ (maskAttn ∧ training) →
        dtype = DType.float16 ∨ dtype = DType.bfloat16 →
        scaled_dot_product_attention true DeviceType.cuda dtype training maskAttn false
            none maxSeqlen forceUseMasking windowSize configWindowSize =
          Except.error "cu_seqlens must be provided for intradoc mask")
    ∧ (∀ (dtype : DType) (training maskAttn maskPresent : Bool)
        (cuseqLens : Option (List Nat)) (maxSeqlen : Option Nat)
        (forceUseMasking : Bool) (windowSize : Option Int) (configWindowSize : Int),
        scaled_dot_product_attention true DeviceType.cpu dtype training maskAttn
            maskPresent cuseqLens maxSeqlen forceUseMasking windowSize configWindowSize =
          Except.ok (AttnPath.reference maskPresent)) := by
  refine ⟨?_, ?_, ?_⟩
  · intro forceUseMasking training intradocMask fragmentNums hactive
    refine ⟨"AttributeError: NoneType object has no attribute device", ?_⟩
    unfold gptForwardPrep
    rw [if_pos hactive]
  · intro dtype training maskAttn maxSeqlen forceUseMasking windowSize configWindowSize
      hactive hdtype
    rcases hdtype with h | h <;> subst h <;>
      rcases hactive with hf | ⟨hm, ht⟩ <;>
        simp_all [scaled_dot_product_attention]
  · intro dtype training maskAttn maskPresent cuseqLens maxSeqlen forceUseMasking
      windowSize configWindowSize
    simp [scaled_dot_product_attention]

/-- Witness for C2's amended theorem: at concrete inputs, the model-level
prep and the fused path both error while the CPU call silently succeeds. -/
theorem sdpa_missing_cuseqlens_fail_fast_witness :
    (True ∨ ("doc" ≠ "" ∧ True)) ∧
      (∃ msg, gptForwardPrep true true "doc" none none = Except.error msg) ∧
      scaled_dot_product_attention true DeviceType.cuda DType.bfloat16 true true false
          none none true none (-1) =
        Except.error "cu_seqlens must be provided for intradoc mask" ∧
      scaled_dot_product_attention true DeviceType.cpu DType.float32 false false true
          none none false none (-1) = Except.ok (AttnPath.reference true) :=
  ⟨Or.inl trivial,
    sdpa_missing_cuseqlens_fail_fast.1 true true "doc" none (Or.inl rfl),
    sdpa_missing_cuseqlens_fail_fast.2.1 DType.bfloat16 true true none true none (-1)
      (Or.inl rfl) (Or.inr rfl),
    sdpa_missing_cuseqlens_fail_fast.2.2 DType.float32 false false true none none false
      none (-1)⟩

/-- C3: on both sliding-window code paths — the document-segmented varlen
path and the non-segmented windowed flash path — an explicitly supplied
`window_size` argument takes precedence, and the configured window size is
used only when the argument is absent; in either case the kernel receives
the causal window `(w - 1, 0)`. -/
theorem sdpa_window_argument_precedence
    (flashAttention2Available : Bool) (device : DeviceType) (dtype : DType)
    (training maskAttn maskPresent : Bool) (cuseqLens : Option (List Nat))
    (maxSeqlen : Option Nat) (forceUseMasking : Bool) (windowSize : Option Int)
    (configWindowSize : Int) (p : Int × Int)
    (h : scaled_dot_product_attention flashAttention2Available device dtype training
          maskAttn maskPresent cuseqLens maxSeqlen forceUseMasking windowSize
          configWindowSize = Except.ok (AttnPath.varlenSegmented (some p)) ∨
        scaled_dot_product_attention flashAttention2Available device dtype training
          maskAttn maskPresent cuseqLens maxSeqlen forceUseMasking windowSize
          configWindowSize = Except.ok (AttnPath.flashWindowed p)) :
    (∀ w, windowSize = some w → p = (w - 1, 0)) ∧
      (windowSize = none → p = (configWindowSize - 1, 0)) := by
  cases windowSize with
  | none =>
    refine ⟨fun w hw => Option.noConfusion hw, fun _ => ?_⟩
    unfold scaled_dot_product_attention at h
    rcases h with h | h <;>
      (split_ifs at h <;> cases cuseqLens <;> cases maxSeqlen <;> simp_all)
  | some w =>
    refine ⟨fun w' hw' => ?_, fun hn => Option.noConfusion hn⟩
    cases hw'
    unfold scaled_dot_product_attention at h
    rcases h with h | h <;>
      (split_ifs at h <;> cases cuseqLens <;> cases maxSeqlen <;> simp_all)

/-- Witness for C3: a concrete explicit argument `window_size = 7` with a
conflicting configured window `256` — the kernel window is `(6, 0)`. -/
theorem sdpa_window_argument_precedence_witness :
    (scaled_dot_product_attention true DeviceType.cuda DType.bfloat16 false false false
        none none false (some 7) 256 = Except.ok (AttnPath.varlenSegmented (some (6, 0))) ∨
      scaled_dot_product_attention true DeviceType.cuda DType.bfloat16 false false false
        none none false (some 7) 256 = Except.ok (AttnPath.flashWindowed (6, 0))) ∧
      (∀ w, (some 7 : Option Int) = some w → ((6 : Int), (0 : Int)) = (w - 1, 0)) :=
  ⟨Or.inr rfl,
    (sdpa_window_argument_precedence true DeviceType.cuda DType.bfloat16 false false
      false none none false (some 7) 256 (6, 0) (Or.inr rfl)).1⟩

/-! ## Forward-pass capacity validation (`GPT.forward`, model.py lines 83-94) -/

/-- Model of the size validation at the top of `GPT.forward`: `T` is the
input sequence length, `use_kv_cache` is `input_pos is not None`,
`max_seq_length` defaults to the block size, and the three `assert`
statements are checked in source order.  On success the effective
`max_seq_length` is returned. -/
def gptForwardValidate (T blockSize : Nat) (maxSeqLengthArg : Option Nat)
    (useKvCache : Bool) : Except String Nat :=
  let maxSeqLength := maxSeqLengthArg.getD blockSize
  if useKvCache ∧ maxSeqLength < T then
    Except.error "Cannot forward sequence: max seq length is smaller than the sequence"
  else if blockSize < maxSeqLength then
    Except.error "Cannot attend: block size is smaller than max seq length"
  else if blockSize < T then
    Except.error "Cannot forward sequence: block size is smaller than the sequence"
  else
    Except.ok maxSeqLength

/-- C6: `GPT.forward` fails fast whenever the input length exceeds the block
size, whenever the supplied `max_seq_length` exceeds the block size, and, in
incremental-decoding mode, whenever `max_seq_length` is smaller than the
input length. -/
theorem gptForwardValidate_fail_fast :
    (∀ (T blockSize : Nat) (maxSeqLengthArg : Option Nat) (useKvCache : Bool),
        blockSize < T →
        ∃ msg, gptForwardValidate T blockSize maxSeqLengthArg useKvCache =
          Except.error msg)
    ∧ (∀ (T blockSize m : Nat) (useKvCache : Bool),
        blockSize < m →
        ∃ msg, gptForwardValidate T blockSize (some m) useKvCache = Except.error msg)
    ∧ (∀ (T blockSize m : Nat),
        m < T →
        ∃ msg, gptForwardValidate T blockSize (some m) true = Except.error msg) := by
  refine ⟨?_, ?_, ?_⟩
  · intro T blockSize maxSeqLengthArg useKvCache hT
    unfold gptForwardValidate
    dsimp only
    split_ifs <;> exact ⟨_, rfl⟩
  · intro T blockSize m useKvCache hm
    unfold gptForwardValidate
    dsimp only [Option.getD_some]
    split_ifs
    all_goals exact ⟨_, rfl⟩
  · intro T blockSize m hm
    unfold gptForwardValidate
    dsimp only [Option.getD_some]
    rw [if_pos (by simpa using hm)]
    exact ⟨_, rfl⟩

/-- Witness for C6: concrete failing calls for all three capacity
violations. -/
theorem gptForwardValidate_fail_fast_witness :
    (8 < 9 ∧ ∃ msg, gptForwardValidate 9 8 none false = Except.error msg) ∧
      (8 < 12 ∧ ∃ msg, gptForwardValidate 4 8 (some 12) false = Except.error msg) ∧
      (3 < 5 ∧ ∃ msg, gptForwardValidate 5 8 (some 3) true = Except.error msg) :=
  ⟨⟨by decide, gptForwardValidate_fail_fast.1 9 8 none false (by decide)⟩,
    ⟨by decide, gptForwardValidate_fail_fast.2.1 4 8 12 false (by decide)⟩,
    ⟨by decide, gptForwardValidate_fail_fast.2.2 5 8 3 (by decide)⟩⟩

/-! ## Causal mask (`GPT.build_mask_cache`, model.py lines 171-173) -/

/-- Entry lookup in a matrix modelled as a list of rows. -/
def matEntry (m : List (List β)) (i j : Nat) : Option β :=
  m[i]?.bind fun row => row[j]?

/-- Model of `torch.ones((n, n), dtype=torch.bool)`. -/
def torchOnes (n : Nat) : List (List Bool) :=
  List.replicate n (List.replicate n true)

/-- Model of `torch.tril` on a boolean matrix: entries above the main
diagonal are zeroed (set to `false`), the rest are kept. -/
def torchTril (m : List (List Bool)) : List (List Bool) :=
  m.enum.map fun ir => ir.2.enum.map fun jc => if jc.1 ≤ ir.1 then jc.2 else false

/-- Model of `GPT.build_mask_cache` (model.py lines 171-173); the two
leading singleton broadcast dimensions added by `unsqueeze` are dropped. -/
def build_mask_cache (blockSize : Nat) : List (List Bool) :=
  torchTril (torchOnes blockSize)

/-- C7: the mask built for incremental decoding is block-size by block-size
and lower-triangular inclusive: entry `(i, j)` is `true` iff `j ≤ i`, and in
particular `false` whenever `i < j`. -/
theorem build_mask_cache_lower_triangular :
    (∀ n, (build_mask_cache n).length = n ∧
      ∀ row ∈ build_mask_cache n, row.length = n)
    ∧ (∀ n i j, i < n → j < n →
        matEntry (build_mask_cache n) i j = some (decide (j ≤ i)))
    ∧ (∀ n i j, i < n → j < n → i < j →
        matEntry (build_mask_cache n) i j = some false) := by
  have hentry : ∀ n i j, i < n → j < n →
      matEntry (build_mask_cache n) i j = some (decide (j ≤ i)) := by
    intro n i j hi hj
    unfold build_mask_cache torchTril torchOnes matEntry
    rw [List.getElem?_map, List.getElem?_enum, List.getElem?_replicate, if_pos hi]
    simp only [Option.map_some', Option.some_bind']
    rw [List.getElem?_map, List.getElem?_enum, List.getElem?_replicate, if_pos hj]
    simp only [Option.map_some']
    by_cases h : j ≤ i <;> simp [h]
  refine ⟨?_, hentry, ?_⟩
  · intro n
    constructor
    · unfold build_mask_cache torchTril torchOnes
      rw [List.length_map, List.enum_length, List.length_replicate]
    · intro row hrow
      unfold build_mask_cache torchTril torchOnes at hrow
      obtain ⟨ir, hir, hrow⟩ := List.mem_map.mp hrow
      subst hrow
      rw [List.length_map, List.enum_length]
      have h2 : ir.2 = List.replicate n true :=
        List.eq_of_mem_replicate (List.snd_mem_of_mem_enum hir)
      rw [h2, List.length_replicate]
  · intro n i j hi hj hij
    rw [hentry n i j hi hj]
    simp [Nat.not_le.mpr hij]

/-- Witness for C7: the 4-by-4 mask at entries (2,1) and (1,2). -/
theorem build_mask_cache_lower_triangular_witness :
    ((2 : Nat) < 4 ∧ (1 : Nat) < 4 ∧
      matEntry (build_mask_cache 4) 2 1 = some (decide (1 ≤ 2))) ∧
      ((1 : Nat) < 4 ∧ (2 : Nat) < 4 ∧ (1 : Nat) < 2 ∧
        matEntry (build_mask_cache 4) 1 2 = some false) :=
  ⟨⟨by decide, by decide,
      build_mask_cache_lower_triangular.2.1 4 2 1 (by decide) (by decide)⟩,
    ⟨by decide, by decide, by decide,
      build_mask_cache_lower_triangular.2.2 4 1 2 (by decide) (by decide) (by decide)⟩⟩

/-! ## Transformer block residual wiring (`Block.forward`, model.py lines 202-230)

The attention, MLP and normalization sublayers are opaque functions here: the
claim is about the residual wiring and the rejected configuration, not about
their values. -/

/-- Model of `Block.forward`: `norm1`/`norm2` are the two normalization
layers (`norm_2` reused as `norm_1`'s output when the shared flag is set),
`attn`/`mlp` the sublayers, and `add` the residual addition. -/
def blockForward (parallelResidual sharedAttentionNorm : Bool)
    (norm1 norm2 attn mlp : β → β) (add : β → β → β) (x : β) : Except String β :=
  let n1 := norm1 x
  let h := attn n1
  if parallelResidual then
    let n2 := if sharedAttentionNorm then n1 else norm2 x
    Except.ok (add (add x h) (mlp n2))
  else if sharedAttentionNorm then
    Except.error
      "No checkpoint amongst the ones we support uses this configuration (non-parallel residual and shared attention norm)."
  else
    let x1 := add x h
    Except.ok (add x1 (mlp (norm2 x1)))

/-- C8: sequential (non-parallel) residual topology combined with a shared
attention/feed-forward norm is rejected with a configuration error at
forward time, and no output is ever produced under that combination. -/
theorem blockForward_rejects_sequential_shared_norm :
    ∀ (β : Type) (norm1 norm2 attn mlp : β → β) (add : β → β → β) (x : β),
      blockForward false true norm1 norm2 attn mlp add x =
        Except.error
          "No checkpoint amongst the ones we support uses this configuration (non-parallel residual and shared attention norm)." ∧
      ∀ y, blockForward false true norm1 norm2 attn mlp add x ≠ Except.ok y := by
  intro β norm1 norm2 attn mlp add x
  refine ⟨rfl, ?_⟩
  intro y h
  rw [show blockForward false true norm1 norm2 attn mlp add x = Except.error
    "No checkpoint amongst the ones we support uses this configuration (non-parallel residual and shared attention norm)."
    from rfl] at h
  cases h

/-! ## Rotary cache (`build_rope_cache`, model.py lines 410-436)

`theta = 1.0 / (base ** (torch.arange(0, n_elem, 2) / n_elem))` — entry `i`
of `arange(0, n_elem, 2)` is `2 * i`; `seq_idx = torch.arange(seq_len) /
condense_ratio`; `idx_theta = torch.outer(seq_idx, theta)`; `cos`/`sin`
elementwise.  The floating-point computation is modelled over `ℝ` (the
final narrowing to `bfloat16` is treated as the tolerance in the concrete
scenario below). -/

/-- Frequency `theta_i = 1 / base ^ (2 i / n_elem)`. -/
noncomputable def ropeTheta (nElem : Nat) (base : ℝ) (i : Nat) : ℝ :=
  1 / base ^ (((2 * i : Nat) : ℝ) / (nElem : ℝ))

/-- Angle at position `p`, frequency column `i`:
`(p / condense_ratio) * theta_i`. -/
noncomputable def ropeAngle (nElem : Nat) (base : ℝ) (condense : Nat) (p i : Nat) : ℝ :=
  ((p : ℝ) / (condense : ℝ)) * ropeTheta nElem base i

/-- Model of module-level `build_rope_cache`: the pair of `[seq_len,
n_elem/2]` cosine and sine tables. -/
noncomputable def build_rope_cache (seqLen nElem : Nat) (base : ℝ) (condense : Nat) :
    List (List ℝ) × List (List ℝ) :=
  ((List.range seqLen).map fun p =>
      (List.range (nElem / 2)).map fun i => Real.cos (ropeAngle nElem base condense p i),
    (List.range seqLen).map fun p =>
      (List.range (nElem / 2)).map fun i => Real.sin (ropeAngle nElem base condense p i))

theorem ropeTheta_zero (nElem : Nat) (base : ℝ) : ropeTheta nElem base 0 = 1 := by
  unfold ropeTheta
  norm_num

theorem ropeAngle_zero_pos (nElem : Nat) (base : ℝ) (condense : Nat) (i : Nat) :
    ropeAngle nElem base condense 0 i = 0 := by
  unfold ropeAngle
  norm_num

theorem ropeTheta_example_one : ropeTheta 4 10000 1 = 1 / 100 := by
  unfold ropeTheta
  have h24 : (((2 * 1 : Nat) : ℝ) / ((4 : Nat) : ℝ)) = (2 : ℝ) * (1 / 2 * (1 / 2)) := by
    norm_num
  rw [h24]
  rw [show (10000 : ℝ) = (100 : ℝ) ^ (2 : Nat) by norm_num]
  rw [← Real.rpow_natCast (100 : ℝ) 2, ← Real.rpow_mul (by norm_num : (0:ℝ) ≤ 100)]
  norm_num

theorem rope_cache_entry (seqLen nElem : Nat) (base : ℝ) (condense : Nat)
    (p i : Nat) (hp : p < seqLen) (hi : i < nElem / 2) :
    matEntry (build_rope_cache seqLen nElem base condense).1 p i =
        some (Real.cos (ropeAngle nElem base condense p i)) ∧
      matEntry (build_rope_cache seqLen nElem base condense).2 p i =
        some (Real.sin (ropeAngle nElem base condense p i)) := by
  unfold build_rope_cache matEntry
  constructor <;>
    (rw [List.getElem?_map, List.getElem?_range hp]
     simp only [Option.map_some', Option.some_bind']
     rw [List.getElem?_map, List.getElem?_range hi]
     simp only [Option.map_some'])

/-! Numeric bounds on `cos`/`sin` at the concrete angles of the rotary
scenario, obtained from the Taylor estimates `Real.cos_bound` /
`Real.sin_bound` at `1/4` and `1/100` plus double-angle formulas. -/

theorem sin_quarter_bounds :
    (6075 : ℝ) / 24576 ≤ Real.sin (1 / 4) ∧ Real.sin (1 / 4) ≤ 6085 / 24576 := by
  have habs : |(1 / 4 : ℝ)| ≤ 1 := by rw [abs_of_nonneg (by norm_num)]; norm_num
  have h := abs_le.mp (Real.sin_bound habs)
  rw [abs_of_nonneg (by norm_num : (0:ℝ) ≤ 1 / 4)] at h
  constructor <;> nlinarith [h.1, h.2]

theorem cos_quarter_bounds :
    (23803 : ℝ) / 24576 ≤ Real.cos (1 / 4) ∧ Real.cos (1 / 4) ≤ 23813 / 24576 := by
  have habs : |(1 / 4 : ℝ)| ≤ 1 := by rw [abs_of_nonneg (by norm_num)]; norm_num
  have h := abs_le.mp (Real.cos_bound habs)
  rw [abs_of_nonneg (by norm_num : (0:ℝ) ≤ 1 / 4)] at h
  constructor <;> nlinarith [h.1, h.2]

theorem sin_half_bounds :
    (4788 : ℝ) / 10000 ≤ Real.sin (1 / 2) ∧ Real.sin (1 / 2) ≤ 4799 / 10000 := by
  have hdouble : Real.sin (1 / 2) = 2 * Real.sin (1 / 4) * Real.cos (1 / 4) := by
    rw [show (1 / 2 : ℝ) = 2 * (1 / 4) by norm_num, Real.sin_two_mul]
  have hs := sin_quarter_bounds
  have hc := cos_quarter_bounds
  constructor <;> nlinarith [hs.1, hs.2, hc.1, hc.2]

theorem cos_half_bounds :
    (8773 : ℝ) / 10000 ≤ Real.cos (1 / 2) ∧ Real.cos (1 / 2) ≤ 8778 / 10000 := by
  have hdouble : Real.cos (1 / 2) =
      Real.cos (1 / 4) ^ 2 - Real.sin (1 / 4) ^ 2 := by
    rw [show (1 / 2 : ℝ) = 2 * (1 / 4) by norm_num, Real.cos_two_mul']
  have hpy := Real.sin_sq_add_cos_sq (1 / 4)
  have hs := sin_quarter_bounds
  have hc := cos_quarter_bounds
  constructor <;> nlinarith [hs.1, hs.2, hc.1, hc.2, hpy]

theorem cos_one_bounds :
    (5393 : ℝ) / 10000 ≤ Real.cos 1 ∧ Real.cos 1 ≤ 5416 / 10000 := by
  have hdouble : Real.cos 1 = Real.cos (1 / 2) ^ 2 - Real.sin (1 / 2) ^ 2 := by
    have h := Real.cos_two_mul' (1 / 2)
    norm_num at h
    exact h
  have hpy := Real.sin_sq_add_cos_sq (1 / 2)
  have hs := sin_half_bounds
  have hc := cos_half_bounds
  constructor <;>
    nlinarith [hs.1, hs.2, hc.1, hc.2, hpy,
      mul_nonneg (sub_nonneg.mpr hs.2) (sub_nonneg.mpr hs.1),
      mul_nonneg (sub_nonneg.mpr hc.2) (sub_nonneg.mpr hc.1)]

theorem sin_one_bounds :
    (8401 : ℝ) / 10000 ≤ Real.sin 1 ∧ Real.sin 1 ≤ 8426 / 10000 := by
  have hdouble : Real.sin 1 = 2 * Real.sin (1 / 2) * Real.cos (1 / 2) := by
    have h := Real.sin_two_mul (1 / 2)
    norm_num at h
    exact h
  have hs := sin_half_bounds
  have hc := cos_half_bounds
  constructor <;>
    nlinarith [hs.1, hs.2, hc.1, hc.2,
      mul_nonneg (sub_nonneg.mpr hs.1) (sub_nonneg.mpr hc.1),
      mul_nonneg (sub_nonneg.mpr hs.2) (sub_nonneg.mpr hc.2),
      mul_nonneg (sub_nonneg.mpr hs.1) (sub_nonneg.mpr hc.2),
      mul_nonneg (sub_nonneg.mpr hs.2) (sub_nonneg.mpr hc.1)]

theorem cos_one_approx : |Real.cos 1 - 5403 / 10000| ≤ 1 / 250 := by
  have h := cos_one_bounds
  rw [abs_le]
  constructor <;> nlinarith [h.1, h.2]

theorem sin_one_approx : |Real.sin 1 - 8415 / 10000| ≤ 1 / 250 := by
  have h := sin_one_bounds
  rw [abs_le]
  constructor <;> nlinarith [h.1, h.2]

theorem cos_hundredth_approx : |Real.cos (1 / 100) - 99995 / 100000| ≤ 1 / 250 := by
  have habs : |(1 / 100 : ℝ)| ≤ 1 := by rw [abs_of_nonneg (by norm_num)]; norm_num
  have h := abs_le.mp (Real.cos_bound habs)
  rw [abs_of_nonneg (by norm_num : (0:ℝ) ≤ 1 / 100)] at h
  rw [abs_le]
  constructor <;> nlinarith [h.1, h.2]

theorem sin_hundredth_approx : |Real.sin (1 / 100) - 1 / 100| ≤ 1 / 250 := by
  have habs : |(1 / 100 : ℝ)| ≤ 1 := by rw [abs_of_nonneg (by norm_num)]; norm_num
  have h := abs_le.mp (Real.sin_bound habs)
  rw [abs_of_nonneg (by norm_num : (0:ℝ) ≤ 1 / 100)] at h
  rw [abs_le]
  constructor <;> nlinarith [h.1, h.2]

theorem ropeAngle_example_one_zero : ropeAngle 4 10000 1 1 0 = 1 := by
  unfold ropeAngle
  rw [ropeTheta_zero]
  norm_num

theorem ropeAngle_example_one_one : ropeAngle 4 10000 1 1 1 = 1 / 100 := by
  unfold ropeAngle
  rw [ropeTheta_example_one]
  norm_num

/-- C4: `build_rope_cache` returns cosine and sine tables of shape
`[seq_len, n_elem/2]` whose entry `(p, i)` is the cosine respectively sine
of `(p / condense_ratio) * base ^ (-2 i / n_elem)`; row 0 of the cosine
table is all ones and row 0 of the sine table all zeros; and for
`base = 10000`, `n_elem = 4`, `seq_len = 2` the frequencies are `[1, 1/100]`,
the angles `[[0, 0], [1, 1/100]]`, and the non-trivial row evaluates to
`cos ≈ [0.5403, 0.99995]`, `sin ≈ [0.8415, 0.01]` within the
narrowed-dtype tolerance `1/250`. -/
theorem build_rope_cache_spec :
    (∀ (seqLen nElem condense : Nat) (base : ℝ),
        1 ≤ seqLen → 2 ≤ nElem → nElem % 2 = 0 → 0 < base → 1 ≤ condense →
        (build_rope_cache seqLen nElem base condense).1.length = seqLen ∧
        (build_rope_cache seqLen nElem base condense).2.length = seqLen ∧
        (∀ row ∈ (build_rope_cache seqLen nElem base condense).1,
          row.length = nElem / 2) ∧
        (∀ row ∈ (build_rope_cache seqLen nElem base condense).2,
          row.length = nElem / 2) ∧
        (∀ p i, p < seqLen → i < nElem / 2 →
          matEntry (build_rope_cache seqLen nElem base condense).1 p i =
              some (Real.cos (((p : ℝ) / (condense : ℝ)) *
                base ^ (-(((2 * i : Nat) : ℝ) / (nElem : ℝ))))) ∧
            matEntry (build_rope_cache seqLen nElem base condense).2 p i =
              some (Real.sin (((p : ℝ) / (condense : ℝ)) *
                base ^ (-(((2 * i : Nat) : ℝ) / (nElem : ℝ)))))) ∧
        (∀ i, i < nElem / 2 →
          matEntry (build_rope_cache seqLen nElem base condense).1 0 i = some 1 ∧
            matEntry (build_rope_cache seqLen nElem base condense).2 0 i = some 0))
    ∧ (ropeTheta 4 10000 0 = 1 ∧ ropeTheta 4 10000 1 = 1 / 100 ∧
        ropeAngle 4 10000 1 0 0 = 0 ∧ ropeAngle 4 10000 1 0 1 = 0 ∧
        ropeAngle 4 10000 1 1 0 = 1 ∧ ropeAngle 4 10000 1 1 1 = 1 / 100 ∧
        matEntry (build_rope_cache 2 4 10000 1).1 0 0 = some 1 ∧
        matEntry (build_rope_cache 2 4 10000 1).1 0 1 = some 1 ∧
        matEntry (build_rope_cache 2 4 10000 1).2 0 0 = some 0 ∧
        matEntry (build_rope_cache 2 4 10000 1).2 0 1 = some 0 ∧
        (∃ c, matEntry (build_rope_cache 2 4 10000 1).1 1 0 = some c ∧
          |c - 5403 / 10000| ≤ 1 / 250) ∧
        (∃ c, matEntry (build_rope_cache 2 4 10000 1).1 1 1 = some c ∧
          |c - 99995 / 100000| ≤ 1 / 250) ∧
        (∃ s, matEntry (build_rope_cache 2 4 10000 1).2 1 0 = some s ∧
          |s - 8415 / 10000| ≤ 1 / 250) ∧
        (∃ s, matEntry (build_rope_cache 2 4 10000 1).2 1 1 = some s ∧
          |s - 1 / 100| ≤ 1 / 250)) := by
  have hangle : ∀ (nElem condense : Nat) (base : ℝ), 0 < base → ∀ p i : Nat,
      ropeAngle nElem base condense p i =
        ((p : ℝ) / (condense : ℝ)) * base ^ (-(((2 * i : Nat) : ℝ) / (nElem : ℝ))) := by
    intro nElem condense base hbase p i
    unfold ropeAngle ropeTheta
    rw [Real.rpow_neg (le_of_lt hbase), one_div]
  constructor
  · intro seqLen nElem condense base hseq hn hev hbase hcond
    refine ⟨?_, ?_, ?_, ?_, ?_, ?_⟩
    · unfold build_rope_cache
      rw [List.length_map, List.length_range]
    · unfold build_rope_cache
      rw [List.length_map, List.length_range]
    · intro row hrow
      unfold build_rope_cache at hrow
      obtain ⟨p, _, hrow⟩ := List.mem_map.mp hrow
      subst hrow
      rw [List.length_map, List.length_range]
    · intro row hrow
      unfold build_rope_cache at hrow
      obtain ⟨p, _, hrow⟩ := List.mem_map.mp hrow
      subst hrow
      rw [List.length_map, List.length_range]
    · intro p i hp hi
      have h := rope_cache_entry seqLen nElem base condense p i hp hi
      rw [hangle nElem condense base hbase p i] at h
      exact h
    · intro i hi
      have h := rope_cache_entry seqLen nElem base condense 0 i hseq hi
      rw [ropeAngle_zero_pos, Real.cos_zero, Real.sin_zero] at h
      exact h
  · refine ⟨ropeTheta_zero 4 10000, ropeTheta_example_one,
      ropeAngle_zero_pos 4 10000 1 0, ropeAngle_zero_pos 4 10000 1 1, ?_⟩
    have e00 := rope_cache_entry 2 4 10000 1 0 0 (by norm_num) (by norm_num)
    have e01 := rope_cache_entry 2 4 10000 1 0 1 (by norm_num) (by norm_num)
    have e10 := rope_cache_entry 2 4 10000 1 1 0 (by norm_num) (by norm_num)
    have e11 := rope_cache_entry 2 4 10000 1 1 1 (by norm_num) (by norm_num)
    rw [ropeAngle_zero_pos, Real.cos_zero, Real.sin_zero] at e00
    rw [ropeAngle_zero_pos, Real.cos_zero, Real.sin_zero] at e01
    rw [ropeAngle_example_one_zero] at e10
    rw [ropeAngle_example_one_one] at e11
    exact ⟨ropeAngle_example_one_zero, ropeAngle_example_one_one,
      e00.1, e01.1, e00.2, e01.2,
      ⟨Real.cos 1, e10.1, cos_one_approx⟩,
      ⟨Real.cos (1 / 100), e11.1, cos_hundredth_approx⟩,
      ⟨Real.sin 1, e10.2, sin_one_approx⟩,
      ⟨Real.sin (1 / 100), e11.2, sin_hundredth_approx⟩⟩

/-- Witness for C4: the general clause instantiated at the concrete scenario
parameters `seq_len = 2`, `n_elem = 4`, `base = 10000`, `condense = 1`. -/
theorem build_rope_cache_spec_witness :
    (1 ≤ 2 ∧ 2 ≤ 4 ∧ 4 % 2 = 0 ∧ (0 : ℝ) < 10000 ∧ 1 ≤ 1) ∧
      (build_rope_cache 2 4 10000 1).1.length = 2 ∧
      (build_rope_cache 2 4 10000 1).2.length = 2 :=
  ⟨⟨by decide, by decide, by decide, by norm_num, by decide⟩,
    ((build_rope_cache_spec.1 2 4 1 10000 (by decide) (by decide) (by decide)
        (by norm_num) (by decide)).1),
    ((build_rope_cache_spec.1 2 4 1 10000 (by decide) (by decide) (by decide)
        (by norm_num) (by decide)).2.1)⟩

/-! ## Model-level rope-cache construction (`GPT.build_rope_cache`,
model.py lines 136-169)

The re-rope variants build the table at a short canonical length and tile it
along the sequence axis with `Tensor.repeat(factor, 1)`, i.e. whole-table
repetition. -/

/-- Substring test, modelling the Python expression `pat in s` on strings. -/
def containsSub (pat : List Char) : List Char → Bool
  | [] => pat.isEmpty
  | c :: rest => pat.isPrefixOf (c :: rest) || containsSub pat rest

/-- Model of `Tensor.repeat(factor, 1)` on a 2-D tensor: the full list of
rows is repeated `factor` times along the row axis. -/
def torchRepeatRows (factor : Nat) (t : List (List ℝ)) : List (List ℝ) :=
  (List.replicate factor t).flatten

/-- Model of `GPT.build_rope_cache` (model.py lines 136-169): without
`'rerope'` in `config.intradoc_mask` the table is built directly at the
block size; the `fix2rerope`/`fix1rerope` variants build it at canonical
length 2048/1024 and tile by `block_size // rerope_len`; any other re-rope
string raises `NotImplementedError`. -/
noncomputable def gptBuildRopeCache (intradocMask : String) (blockSize nElem : Nat)
    (base : ℝ) (condense : Nat) : Except String (List (List ℝ) × List (List ℝ)) :=
  if containsSub "rerope".toList intradocMask.toList = false then
    Except.ok (build_rope_cache blockSize nElem base condense)
  else if intradocMask = "fix2rerope" then
    let t := build_rope_cache 2048 nElem base condense
    let factor := blockSize / 2048
    Except.ok (torchRepeatRows factor t.1, torchRepeatRows factor t.2)
  else if intradocMask = "fix1rerope" then
    let t := build_rope_cache 1024 nElem base condense
    let factor := blockSize / 1024
    Except.ok (torchRepeatRows factor t.1, torchRepeatRows factor t.2)
  else
    Except.error "Only fix2rerope and fix1rerope are supported"

theorem flatten_replicate_getElem (t : List β) (L F i : Nat) (hL : t.length = L)
    (hi : i < L * F) : (List.replicate F t).flatten[i]? = t[i % L]? := by
  induction F generalizing i with
  | zero => omega
  | succ F ih =>
    have hexp : L * (F + 1) = L * F + L := Nat.mul_succ L F
    rw [hexp] at hi
    rw [List.replicate_succ, List.flatten_cons]
    by_cases hcase : i < L
    · have h1 : i < t.length := by rw [hL]; exact hcase
      rw [List.getElem?_append_left h1, Nat.mod_eq_of_lt hcase]
    · have h1 : t.length ≤ i := by rw [hL]; omega
      have h2 : i - L < L * F := by omega
      have h3 : L ≤ i := by omega
      rw [List.getElem?_append_right h1, hL, ih (i - L) h2,
        Nat.mod_eq_sub_mod h3]

theorem torchRepeatRows_getElem (t : List (List ℝ)) (L F i : Nat)
    (hL : t.length = L) (hi : i < L * F) :
    (torchRepeatRows F t)[i]? = t[i % L]? :=
  flatten_replicate_getElem t L F i hL hi

theorem build_rope_cache_lengths (seqLen nElem : Nat) (base : ℝ) (condense : Nat) :
    (build_rope_cache seqLen nElem base condense).1.length = seqLen ∧
      (build_rope_cache seqLen nElem base condense).2.length = seqLen := by
  unfold build_rope_cache
  constructor <;> rw [List.length_map, List.length_range]

/-- C5: in the re-rope variants (`fix1rerope` with canonical length
`L = 1024`, `fix2rerope` with `L = 2048`), the model's rope tables satisfy
`table_tiled[i] = table_canonical[i mod L]` for every row
`i < L * (block_size / L)`, for both the cosine and the sine table — plain
repetition, not interpolation. -/
theorem gptBuildRopeCache_rerope_tiling (intradocMask : String)
    (L blockSize nElem condense : Nat) (base : ℝ)
    (hvariant : (intradocMask = "fix1rerope" ∧ L = 1024) ∨
      (intradocMask = "fix2rerope" ∧ L = 2048)) :
    ∃ cosT sinT,
      gptBuildRopeCache intradocMask blockSize nElem base condense =
        Except.ok (cosT, sinT) ∧
      ∀ i, i < L * (blockSize / L) →
        cosT[i]? = (build_rope_cache L nElem base condense).1[i % L]? ∧
        sinT[i]? = (build_rope_cache L nElem base condense).2[i % L]? := by
  rcases hvariant with ⟨hm, hL⟩ | ⟨hm, hL⟩ <;> subst hm <;> subst hL
  · refine ⟨torchRepeatRows (blockSize / 1024)
        (build_rope_cache 1024 nElem base condense).1,
      torchRepeatRows (blockSize / 1024)
        (build_rope_cache 1024 nElem base condense).2, ?_, ?_⟩
    · unfold gptBuildRopeCache
      rw [if_neg (by decide), if_neg (by decide), if_pos rfl]
    · intro i hi
      have hlen := build_rope_cache_lengths 1024 nElem base condense
      exact ⟨torchRepeatRows_getElem _ 1024 _ i hlen.1 hi,
        torchRepeatRows_getElem _ 1024 _ i hlen.2 hi⟩
  · refine ⟨torchRepeatRows (blockSize / 2048)
        (build_rope_cache 2048 nElem base condense).1,
      torchRepeatRows (blockSize / 2048)
        (build_rope_cache 2048 nElem base condense).2, ?_, ?_⟩
    · unfold gptBuildRopeCache
      rw [if_neg (by decide), if_pos rfl]
    · intro i hi
      have hlen := build_rope_cache_lengths 2048 nElem base condense
      exact ⟨torchRepeatRows_getElem _ 2048 _ i hlen.1 hi,
        torchRepeatRows_getElem _ 2048 _ i hlen.2 hi⟩

/-- Witness for C5: the `fix1rerope` variant at block size 2048 (tiling
factor 2), row 1500 of the tiled table equals row `1500 mod 1024 = 476` of
the canonical table. -/
theorem gptBuildRopeCache_rerope_tiling_witness :
    (("fix1rerope" = "fix1rerope" ∧ 1024 = 1024) ∨
      ("fix1rerope" = "fix2rerope" ∧ 1024 = 2048)) ∧
      ∃ cosT sinT,
        gptBuildRopeCache "fix1rerope" 2048 4 10000 1 = Except.ok (cosT, sinT) ∧
        ∀ i, i < 1024 * (2048 / 1024) →
          cosT[i]? = (build_rope_cache 1024 4 10000 1).1[i % 1024]? ∧
          sinT[i]? = (build_rope_cache 1024 4 10000 1).2[i % 1024]? :=
  ⟨Or.inl ⟨rfl, rfl⟩,
    gptBuildRopeCache_rerope_tiling "fix1rerope" 1024 2048 4 1 10000
      (Or.inl ⟨rfl, rfl⟩)⟩

/-! ## Weight initialization (`GPT._init_weights`, model.py lines 40-54)

`gpt.apply(_init_weights)` visits every module, children before parents.
Visiting an `nn.Embedding` or `nn.Linear` draws its direct `weight` from
`N(0, sqrt(2/5/n_embd))` and zeroes a direct Linear `bias`; then, for every
module visited, the loop over `module.named_parameters()` re-initializes a
parameter seen under the name `"proj.weight"` in a `LLaMAMLP` or a
`CausalSelfAttention`, or `"w3.weight"` in a `SwiGLU`, from
`N(0, 1/sqrt(n_embd)/n_layer)`.  A parameter is therefore modelled by its
direct owner plus the chain of ancestor modules with the dotted name under
which each ancestor sees it, in visiting (innermost-first) order. -/

/-- The module classes relevant to `_init_weights`'s `isinstance` tests. -/
inductive ModuleKind
  | embeddingModule
  | linearModule
  | causalSelfAttentionModule
  | swiGLUModule
  | llamaMLPModule
  | gptNeoxMLPModule
  | blockModule
  | gptModule
deriving DecidableEq, BEq

/-- The distribution finally assigned to a parameter. -/
inductive ParamInit
  | normalInit (mean std : ℝ)
  | zerosInit
  | defaultInit

/-- The boolean tested by the `named_parameters` loop of `_init_weights`
(model.py line 53). -/
def isDepthScaledParam (k : ModuleKind) (name : String) : Bool :=
  (name == "proj.weight" && k == ModuleKind.llamaMLPModule) ||
    ((name == "w3.weight" && k == ModuleKind.swiGLUModule) ||
      (name == "proj.weight" && k == ModuleKind.causalSelfAttentionModule))

/-- `math.sqrt(2.0 / 5 / n_embd)` (model.py lines 44 and 48). -/
noncomputable def baseStd (nEmbd : ℝ) : ℝ := Real.sqrt (2 / 5 / nEmbd)

/-- `1 / math.sqrt(n_embd) / n_layer` (model.py line 54). -/
noncomputable def depthScaledStd (nEmbd nLayer : ℝ) : ℝ :=
  1 / Real.sqrt nEmbd / nLayer

/-- Effect of one `_init_weights(module)` call on one parameter:
`isDirectParam` is true when the module directly owns it (so the
`isinstance(module, Embedding/Linear)` branches can touch it), `nameInModule`
is the name under which `module.named_parameters()` reports it. -/
noncomputable def initWeightsVisit (nEmbd nLayer : ℝ) (k : ModuleKind)
    (nameInModule : String) (isDirectParam : Bool) (cur : ParamInit) : ParamInit :=
  let afterIsinstance :=
    if isDirectParam then
      match k with
      | ModuleKind.embeddingModule =>
        if nameInModule == "weight" then ParamInit.normalInit 0 (baseStd nEmbd) else cur
      | ModuleKind.linearModule =>
        if nameInModule == "weight" then ParamInit.normalInit 0 (baseStd nEmbd)
        else if nameInModule == "bias" then ParamInit.zerosInit
        else cur
      | _ => cur
    else cur
  if isDepthScaledParam k nameInModule then
    ParamInit.normalInit 0 (depthScaledStd nEmbd nLayer)
  else afterIsinstance

/-- A parameter site: its direct owner, its direct name, and the ancestor
modules that see it (innermost first) with the dotted name each one uses. -/
structure ParamPath where
  leaf : ModuleKind
  directName : String
  ancestors : List (ModuleKind × String)

/-- The distribution a parameter ends up with after `gpt.apply(_init_weights)`
(children are visited before parents). -/
noncomputable def initWeightsFinal (nEmbd nLayer : ℝ) (p : ParamPath) : ParamInit :=
  p.ancestors.foldl
    (fun cur a => initWeightsVisit nEmbd nLayer a.1 a.2 false cur)
    (initWeightsVisit nEmbd nLayer p.leaf p.directName true ParamInit.defaultInit)

/-- `transformer.h.i.attn.proj.weight`: the attention output projection. -/
def attnProjWeightPath : ParamPath :=
  ⟨ModuleKind.linearModule, "weight",
    [(ModuleKind.causalSelfAttentionModule, "proj.weight"),
      (ModuleKind.blockModule, "attn.proj.weight"),
      (ModuleKind.gptModule, "transformer.h.0.attn.proj.weight")]⟩

/-- `transformer.h.i.attn.proj.bias` (when biases are enabled). -/
def attnProjBiasPath : ParamPath :=
  ⟨ModuleKind.linearModule, "bias",
    [(ModuleKind.causalSelfAttentionModule, "proj.bias"),
      (ModuleKind.blockModule, "attn.proj.bias"),
      (ModuleKind.gptModule, "transformer.h.0.attn.proj.bias")]⟩

/-- `transformer.h.i.mlp.swiglu.w3.weight`: the SwiGLU feed-forward output
projection (the `fc2` layer renamed `w3` by the xformers `SwiGLU`). -/
def swigluW3WeightPath : ParamPath :=
  ⟨ModuleKind.linearModule, "weight",
    [(ModuleKind.swiGLUModule, "w3.weight"),
      (ModuleKind.llamaMLPModule, "swiglu.w3.weight"),
      (ModuleKind.blockModule, "mlp.swiglu.w3.weight"),
      (ModuleKind.gptModule, "transformer.h.0.mlp.swiglu.w3.weight")]⟩

/-- `transformer.h.i.mlp.proj.weight` for the gated-GELU `GptNeoxMLP`
feed-forward variant: its output projection. -/
def gptNeoxProjWeightPath : ParamPath :=
  ⟨ModuleKind.linearModule, "weight",
    [(ModuleKind.gptNeoxMLPModule, "proj.weight"),
      (ModuleKind.blockModule, "mlp.proj.weight"),
      (ModuleKind.gptModule, "transformer.h.0.mlp.proj.weight")]⟩

/-- `transformer.wte.weight`: the token embedding. -/
def wteWeightPath : ParamPath :=
  ⟨ModuleKind.embeddingModule, "weight",
    [(ModuleKind.gptModule, "transformer.wte.weight")]⟩

/-- `lm_head.weight`: the output head, a plain Linear. -/
def lmHeadWeightPath : ParamPath :=
  ⟨ModuleKind.linearModule, "weight", [(ModuleKind.gptModule, "lm_head.weight")]⟩

theorem baseStd_ne_depthScaledStd_example : baseStd 64 ≠ depthScaledStd 64 4 := by
  have h64 : Real.sqrt 64 = 8 := by
    rw [show (64 : ℝ) = 8 ^ 2 by norm_num]
    exact Real.sqrt_sq (by norm_num)
  have hd : depthScaledStd 64 4 = 1 / 32 := by
    unfold depthScaledStd
    rw [h64]
    norm_num
  intro heq
  rw [hd] at heq
  have hsq : Real.sqrt (2 / 5 / 64) ^ 2 = 2 / 5 / 64 :=
    Real.sq_sqrt (by norm_num)
  rw [show baseStd 64 = Real.sqrt (2 / 5 / 64) from rfl] at heq
  rw [heq] at hsq
  norm_num at hsq

/-- C9 counterexample: for the gated-GELU feed-forward variant
(`GptNeoxMLP`), the output-projection weight is *not* re-initialized with
the depth-scaled standard deviation — the `named_parameters` loop only
matches `LLaMAMLP`, `SwiGLU` and `CausalSelfAttention` — so at
`n_embd = 64`, `n_layer = 4` it keeps the base std
`sqrt(2/5/64) ≠ 1/(sqrt(64)*4)`. -/
theorem initWeights_neox_proj_not_depth_scaled :
    initWeightsFinal 64 4 gptNeoxProjWeightPath = ParamInit.normalInit 0 (baseStd 64) ∧
      baseStd 64 ≠ depthScaledStd 64 4 :=
  ⟨rfl, baseStd_ne_depthScaledStd_example⟩

/-- C9 (amended): the initialization entry point draws embedding and linear
weights from `N(0, sqrt(2/(5*n_embd)))` and zeroes linear biases; the
depth-scaled re-initialization `N(0, 1/(sqrt(n_embd)*n_layer))` is applied
to the attention output projection and to the SwiGLU feed-forward output
projection (`w3`), but the gated-GELU (`GptNeoxMLP`) feed-forward projection
keeps the base standard deviation. -/
theorem initWeights_policy (nEmbd nLayer : ℝ) :
    initWeightsFinal nEmbd nLayer wteWeightPath =
        ParamInit.normalInit 0 (baseStd nEmbd) ∧
      initWeightsFinal nEmbd nLayer lmHeadWeightPath =
        ParamInit.normalInit 0 (baseStd nEmbd) ∧
      initWeightsFinal nEmbd nLayer attnProjBiasPath = ParamInit.zerosInit ∧
      initWeightsFinal nEmbd nLayer attnProjWeightPath =
        ParamInit.normalInit 0 (depthScaledStd nEmbd nLayer) ∧
      initWeightsFinal nEmbd nLayer swigluW3WeightPath =
        ParamInit.normalInit 0 (depthScaledStd nEmbd nLayer) ∧
      initWeightsFinal nEmbd nLayer gptNeoxProjWeightPath =
        ParamInit.normalInit 0 (baseStd nEmbd) ∧
      baseStd nEmbd = Real.sqrt (2 / (5 * nEmbd)) ∧
      depthScaledStd nEmbd nLayer = 1 / (Real.sqrt nEmbd * nLayer) := by
  refine ⟨rfl, rfl, rfl, rfl, rfl, rfl, ?_, ?_⟩
  · unfold baseStd
    rw [div_div]
  · unfold depthScaledStd
    rw [div_div]

end TinyLlama
